import Mathlib

/-!
Shallow embedding of the exec-session subsystem of the per-node agent
(`client/alloc_endpoint.go`): the `Allocations.exec` streaming endpoint,
its validator/locator/session pipeline `execImpl`, and the `execStream`
frame transport (`Send`/`Recv`).

External collaborator results (allocation-runner lookup, token/ACL
resolution, allocation state reads, the driver exec handler) are passed in
as fields of an environment record, so `execImpl` is a pure function of
the decoded request and those collaborator answers, mirroring the Go
control flow line by line.  Three observability flags (`allocExecChecked`,
`nodeExecChecked`, `handlerInvoked`) record which checkpoints of the Go
function were reached; they correspond to evaluating
`aclObj.AllowNsOp(ns, "alloc-exec")`, evaluating
`aclObj.AllowNsOp(ns, "alloc-node-exec")`, and calling the driver handler
`h(ctx, req.Cmd, req.Tty, stream)`.
-/

set_option autoImplicit false

namespace NomadExec

/-- A Go `error` value as observed by this endpoint: its message and
whether `nstructs.IsErrUnknownAllocation` holds of it. -/
structure GoError where
  msg : String
  isUnknownAllocation : Bool
deriving DecidableEq, Repr

/-- The decoded `cstructs.AllocExecRequest` (AuthToken lives in the
embedded `QueryOptions`). -/
structure AllocExecRequest where
  AllocID : String
  Task : String
  Cmd : List String
  Tty : Bool
  AuthToken : String
deriving DecidableEq, Repr

/-- A resolved ACL object: `AllowNsOp namespace capability`. -/
structure ACL where
  allowNsOp : String → String → Bool

/-- Identity attached to a resolved token, used for audit logging only. -/
structure TokenInfo where
  Name : String
  AccessorID : String
deriving DecidableEq, Repr

/-- `acl.NamespaceCapabilityAllocExec`. -/
def NamespaceCapabilityAllocExec : String := "alloc-exec"

/-- `acl.NamespaceCapabilityAllocNodeExec`. -/
def NamespaceCapabilityAllocNodeExec : String := "alloc-node-exec"

/-- `drivers.FSIsolationNone`. -/
def FSIsolationNone : String := "none"

/-- `drivers.FSIsolationChroot`. -/
def FSIsolationChroot : String := "chroot"

/-- `drivers.FSIsolationImage`. -/
def FSIsolationImage : String := "image"

/-- The slice of `drivers.Capabilities` this endpoint inspects. -/
structure Capabilities where
  FSIsolation : String
deriving DecidableEq, Repr

/-- The slice of an allocation this endpoint inspects: its namespace. -/
structure Allocation where
  Namespace : String
deriving DecidableEq, Repr

/-- A task state: `StartedAt` is a timestamp whose zero value means the
task never started (`StartedAt.IsZero()` in Go is `StartedAt = 0`). -/
structure TaskState where
  StartedAt : Nat
deriving DecidableEq, Repr

/-- Allocation state: the task-state mapping (Go map lookup returns `nil`
for absent keys, hence `Option`). -/
structure AllocState where
  TaskStates : String → Option TaskState

/-- The driver exec handler `h(ctx, cmd, tty, stream)`: abstractly, a
function of the command and tty flag returning `some` error or `none`
for success. -/
def ExecHandler : Type := List String → Bool → Option GoError

/-- The slice of an allocation runner this endpoint uses. -/
structure AllocRunner where
  Alloc : Allocation
  GetTaskDriverCapabilities : String → Except GoError Capabilities
  GetTaskExecHandler : String → Option ExecHandler

/-- Collaborator answers available to the endpoint through its client:
remote-exec kill switch, alloc-runner lookup, token/ACL resolution and
allocation-state read. -/
structure ClientEnv where
  DisableRemoteExec : Bool
  getAllocRunner : String → Except GoError AllocRunner
  resolveTokenAndACL : String → Except GoError (Option ACL × Option TokenInfo)
  GetAllocState : String → Except GoError AllocState

/-- The distinct error values `execImpl` can return. `external` wraps an
error propagated from a collaborator (decode, lookup, resolve, handler). -/
inductive ExecError where
  | permissionDenied
  | allocIDNotPresent
  | taskNotPresent
  | commandNotPresent
  | unknownTaskName (task : String)
  | taskNotStarted (task : String)
  | taskNotRunning (task : String)
  | external (e : GoError)
deriving DecidableEq, Repr

/-- Go `%q` formatting of a task name (double quotes around the string). -/
def goQuote (s : String) : String := "\"" ++ s ++ "\""

/-- The `Error()` string of each `ExecError`, following the `fmt.Errorf`
format strings in the source. -/
def ExecError.message : ExecError → String
  | .permissionDenied => "Permission denied"
  | .allocIDNotPresent => "must provide a valid alloc id"
  | .taskNotPresent => "must provide task name"
  | .commandNotPresent => "command is not present"
  | .unknownTaskName t => "unknown task name " ++ goQuote t
  | .taskNotStarted t => "task " ++ goQuote t ++ " not started yet."
  | .taskNotRunning t => "task " ++ goQuote t ++ " is not running."
  | .external e => e.msg

/-- `aclObj != nil && !aclObj.AllowNsOp(ns, cap)`: the deny condition of
both capability checks (a `nil` ACL object is implicitly trusted). -/
def aclDenied (aclObj : Option ACL) (ns cap : String) : Bool :=
  match aclObj with
  | some a => !(a.allowNsOp ns cap)
  | none => false

/-- `if nstructs.IsErrUnknownAllocation(err) { code = 404 } else { 500 }`:
the status code attached to a failed collaborator lookup. -/
def lookupCode (e : GoError) : Int :=
  if e.isUnknownAllocation then 404 else 500

/-- Outcome of `execImpl`: the `(code *int64, err error)` pair, plus
observability flags for which checkpoints were reached during the run. -/
structure ExecResult where
  code : Option Int
  err : Option ExecError
  allocExecChecked : Bool := false
  nodeExecChecked : Bool := false
  handlerInvoked : Bool := false
deriving Repr

/-- `(*Allocations).execImpl`, as a function of the collaborator
environment and the decode outcome of the initial request.  Each branch
mirrors one return statement of the Go function, in source order. -/
def execImpl (env : ClientEnv) (decoded : Except GoError AllocExecRequest) : ExecResult :=
  match decoded with
  | .error e => { code := some 500, err := some (.external e) }
  | .ok req =>
    if env.DisableRemoteExec then
      { code := none, err := some .permissionDenied }
    else if req.AllocID = "" then
      { code := some 400, err := some .allocIDNotPresent }
    else
      match env.getAllocRunner req.AllocID with
      | .error e => { code := some (lookupCode e), err := some (.external e) }
      | .ok ar =>
        let alloc := ar.Alloc
        match env.resolveTokenAndACL req.AuthToken with
        | .error e => { code := none, err := some (.external e) }
        | .ok (aclObj, _token) =>
          let aChk := aclObj.isSome
          if aclDenied aclObj alloc.Namespace NamespaceCapabilityAllocExec then
            { code := none, err := some .permissionDenied, allocExecChecked := aChk }
          else if req.Task = "" then
            { code := some 400, err := some .taskNotPresent, allocExecChecked := aChk }
          else if req.Cmd.length = 0 then
            { code := some 400, err := some .commandNotPresent, allocExecChecked := aChk }
          else
            match ar.GetTaskDriverCapabilities req.Task with
            | .error e =>
              { code := some (lookupCode e), err := some (.external e), allocExecChecked := aChk }
            | .ok capabilities =>
              let nChk := aChk && (capabilities.FSIsolation == FSIsolationNone)
              if nChk && aclDenied aclObj alloc.Namespace NamespaceCapabilityAllocNodeExec then
                { code := none, err := some .permissionDenied,
                  allocExecChecked := aChk, nodeExecChecked := nChk }
              else
                match env.GetAllocState req.AllocID with
                | .error e =>
                  { code := some (lookupCode e), err := some (.external e),
                    allocExecChecked := aChk, nodeExecChecked := nChk }
                | .ok allocState =>
                  match allocState.TaskStates req.Task with
                  | none =>
                    { code := some 400, err := some (.unknownTaskName req.Task),
                      allocExecChecked := aChk, nodeExecChecked := nChk }
                  | some taskState =>
                    if taskState.StartedAt = 0 then
                      { code := some 404, err := some (.taskNotStarted req.Task),
                        allocExecChecked := aChk, nodeExecChecked := nChk }
                    else
                      match ar.GetTaskExecHandler req.Task with
                      | none =>
                        { code := some 404, err := some (.taskNotRunning req.Task),
                          allocExecChecked := aChk, nodeExecChecked := nChk }
                      | some h =>
                        match h req.Cmd req.Tty with
                        | some e =>
                          { code := some 500, err := some (.external e),
                            allocExecChecked := aChk, nodeExecChecked := nChk,
                            handlerInvoked := true }
                        | none =>
                          { code := none, err := none,
                            allocExecChecked := aChk, nodeExecChecked := nChk,
                            handlerInvoked := true }

/-- `cstructs.RpcError`: message plus optional status code. -/
structure RpcError where
  Message : String
  Code : Option Int
deriving DecidableEq, Repr

/-- `cstructs.StreamErrWrapper`: the shared streaming envelope, carrying
an optional terminal error and a byte payload. -/
structure StreamErrWrapper where
  Error : Option RpcError
  Payload : List Nat
deriving DecidableEq, Repr

/-- Modelled from the spec: `handleStreamResultError` (defined outside
these sources) reports a terminal status/error produced before a session
is established as a single envelope written directly, its error fields
carrying the message and optional status code. -/
def handleStreamResultError (e : ExecError) (code : Option Int) : StreamErrWrapper :=
  { Error := some { Message := e.message, Code := code }, Payload := [] }

/-- `(*Allocations).exec`: runs `execImpl` and, when it ends with an
error, writes the one terminal envelope via `handleStreamResultError`.
Returns the result together with the terminal envelope written, if any. -/
def Allocations.exec (env : ClientEnv) (decoded : Except GoError AllocExecRequest) :
    ExecResult × Option StreamErrWrapper :=
  let r := execImpl env decoded
  match r.err with
  | some e => (r, some (handleStreamResultError e r.code))
  | none => (r, none)

/-- The exec output frame (`drivers.ExecTaskStreamingResponseMsg` as the
spec's data model describes it): stdout/stderr byte chunks, exited flag,
optional exit code.  Bytes are modelled as `List Nat`. -/
structure ExecTaskStreamingResponseMsg where
  Stdout : Option (List Nat)
  Stderr : Option (List Nat)
  Exited : Bool
  ExitCode : Option Int
deriving DecidableEq, Repr

/-- Terminal dimensions of a resize event. -/
structure TtySizeMsg where
  Height : Nat
  Width : Nat
deriving DecidableEq, Repr

/-- The exec input frame (`drivers.ExecTaskStreamingRequestMsg` as the
spec's data model describes it): stdin chunk, tty resize, close signal. -/
structure ExecTaskStreamingRequestMsg where
  Stdin : Option (List Nat)
  TtySize : Option TtySizeMsg
  Close : Option Bool
deriving DecidableEq, Repr

/-- The zero value of the input frame: every field `nil`. -/
def zeroExecTaskStreamingRequestMsg : ExecTaskStreamingRequestMsg :=
  { Stdin := none, TtySize := none, Close := none }

/-- Inner frame encoding of an optional byte chunk: an absence tag, or a
presence tag followed by a length-prefixed chunk. -/
def encodeOptBytes : Option (List Nat) → List Nat
  | none => [0]
  | some bs => 1 :: bs.length :: bs

/-- Decoder for `encodeOptBytes`, returning the value and the rest of the
input. -/
def decodeOptBytes : List Nat → Option (Option (List Nat) × List Nat)
  | 0 :: rest => some (none, rest)
  | 1 :: n :: rest =>
    if n ≤ rest.length then some (some (rest.take n), rest.drop n) else none
  | _ => none

/-- Inner frame encoding of a boolean. -/
def encodeBool (b : Bool) : List Nat := [if b then 1 else 0]

/-- Decoder for `encodeBool`. -/
def decodeBool : List Nat → Option (Bool × List Nat)
  | 0 :: rest => some (false, rest)
  | 1 :: rest => some (true, rest)
  | _ => none

/-- Inner frame encoding of an optional integer (tag, sign, magnitude). -/
def encodeOptInt : Option Int → List Nat
  | none => [0]
  | some i => [1, if i < 0 then 1 else 0, i.natAbs]

/-- Decoder for `encodeOptInt`. -/
def decodeOptInt : List Nat → Option (Option Int × List Nat)
  | 0 :: rest => some (none, rest)
  | 1 :: 0 :: m :: rest => some (some (m : Int), rest)
  | 1 :: 1 :: m :: rest => some (some (-(m : Int)), rest)
  | _ => none

/-- The inner (endpoint-specific) encoding of an output frame, as
performed by the `frameCodec` of `execStream.Send`. -/
def encodeResponseFrame (m : ExecTaskStreamingResponseMsg) : List Nat :=
  encodeOptBytes m.Stdout ++ encodeOptBytes m.Stderr ++
    encodeBool m.Exited ++ encodeOptInt m.ExitCode

/-- The inner decoding of an output frame from a payload, consuming the
whole payload. -/
def decodeResponseFrame (l : List Nat) : Option ExecTaskStreamingResponseMsg :=
  match decodeOptBytes l with
  | none => none
  | some (stdout, r1) =>
    match decodeOptBytes r1 with
    | none => none
    | some (stderr, r2) =>
      match decodeBool r2 with
      | none => none
      | some (exited, r3) =>
        match decodeOptInt r3 with
        | none => none
        | some (ec, r4) =>
          if r4 = [] then
            some { Stdout := stdout, Stderr := stderr, Exited := exited, ExitCode := ec }
          else none

/-- The reusable buffer owned by an `execStream` (reset on every Send). -/
structure ExecStreamBuf where
  buf : List Nat
deriving DecidableEq, Repr

/-- `(*execStream).Send`: reset the buffer, serialize the frame with the
inner encoding into it, and write one envelope whose payload is the
buffer contents and whose error field is unset. -/
def execStream.Send (_s : ExecStreamBuf) (m : ExecTaskStreamingResponseMsg) :
    ExecStreamBuf × StreamErrWrapper :=
  let b := encodeResponseFrame m
  (⟨b⟩, { Error := none, Payload := b })

/-- `(*execStream).Recv`: starts from a zero-valued frame, decodes into
it, and returns the frame (never `nil`) together with the decode error,
if any. -/
def execStream.Recv (d : Except GoError ExecTaskStreamingRequestMsg) :
    ExecTaskStreamingRequestMsg × Option GoError :=
  match d with
  | .ok r => (r, none)
  | .error e => (zeroExecTaskStreamingRequestMsg, some e)

/-- Modelled from the spec: the counterpart receiver unwraps the envelope
(a frame with error fields set is terminal, not a data frame) and decodes
the payload with the inner encoding. -/
def counterpartRecv (w : StreamErrWrapper) : Option ExecTaskStreamingResponseMsg :=
  match w.Error with
  | some _ => none
  | none => decodeResponseFrame w.Payload

theorem decodeOptBytes_encode (x : Option (List Nat)) (r : List Nat) :
    decodeOptBytes (encodeOptBytes x ++ r) = some (x, r) := by
  cases x with
  | none => rfl
  | some bs =>
    show decodeOptBytes (1 :: bs.length :: (bs ++ r)) = _
    have h : bs.length ≤ (bs ++ r).length := by
      simp [List.length_append]
    simp [decodeOptBytes, h, List.take_left, List.drop_left]

theorem decodeBool_encode (b : Bool) (r : List Nat) :
    decodeBool (encodeBool b ++ r) = some (b, r) := by
  cases b <;> rfl

theorem decodeOptInt_encode (x : Option Int) (r : List Nat) :
    decodeOptInt (encodeOptInt x ++ r) = some (x, r) := by
  cases x with
  | none => rfl
  | some i =>
    show decodeOptInt (1 :: (if i < 0 then 1 else 0) :: i.natAbs :: r) = _
    by_cases h : i < 0
    · rw [if_pos h]
      have hi : -(i.natAbs : Int) = i := by omega
      show some (some (-(i.natAbs : Int)), r) = _
      rw [hi]
    · rw [if_neg h]
      have hi : ((i.natAbs : Int)) = i := by omega
      show some (some ((i.natAbs : Int)), r) = _
      rw [hi]

theorem decodeResponseFrame_encode (m : ExecTaskStreamingResponseMsg) :
    decodeResponseFrame (encodeResponseFrame m) = some m := by
  have h4 : decodeOptInt (encodeOptInt m.ExitCode) = some (m.ExitCode, []) := by
    have := decodeOptInt_encode m.ExitCode []
    simpa using this
  simp [decodeResponseFrame, encodeResponseFrame, decodeOptBytes_encode,
    decodeBool_encode, h4]

/-! ### Concrete fixtures used to exercise the endpoint -/

/-- A lookup error for which `IsErrUnknownAllocation` holds. -/
def unknownAllocErr : GoError := { msg := "unknown allocation", isUnknownAllocation := true }

/-- A lookup error that is not an unknown-allocation error. -/
def internalErr : GoError := { msg := "storage failure", isUnknownAllocation := false }

/-- An error returned by the driver handler. -/
def driverErr : GoError := { msg := "driver failed", isUnknownAllocation := false }

/-- An ACL granting every namespace capability. -/
def aclAll : ACL := { allowNsOp := fun _ _ => true }

/-- An ACL granting no namespace capability. -/
def aclNothing : ACL := { allowNsOp := fun _ _ => false }

/-- An ACL granting exactly the `alloc-exec` capability in every
namespace (and in particular not `alloc-node-exec`). -/
def aclExecOnly : ACL :=
  { allowNsOp := fun _ cap => cap == NamespaceCapabilityAllocExec }

/-- A driver handler that succeeds. -/
def handlerOk : ExecHandler := fun _ _ => none

/-- An allocation runner whose task driver uses image isolation and
exposes an exec handler. -/
def arImage : AllocRunner :=
  { Alloc := { Namespace := "default" }
    GetTaskDriverCapabilities := fun _ => .ok { FSIsolation := FSIsolationImage }
    GetTaskExecHandler := fun _ => some handlerOk }

/-- An allocation runner whose task driver has no filesystem isolation. -/
def arNoneIsolation : AllocRunner :=
  { Alloc := { Namespace := "default" }
    GetTaskDriverCapabilities := fun _ => .ok { FSIsolation := FSIsolationNone }
    GetTaskExecHandler := fun _ => some handlerOk }

/-- An allocation runner with image isolation whose driver exposes no
exec handler. -/
def arNoHandler : AllocRunner :=
  { Alloc := { Namespace := "default" }
    GetTaskDriverCapabilities := fun _ => .ok { FSIsolation := FSIsolationImage }
    GetTaskExecHandler := fun _ => none }

/-- Allocation state with one started task named `web`. -/
def stateStarted : AllocState :=
  { TaskStates := fun t => if t = "web" then some { StartedAt := 7 } else none }

/-- Allocation state where task `web` exists but never started. -/
def stateNotStarted : AllocState :=
  { TaskStates := fun t => if t = "web" then some { StartedAt := 0 } else none }

/-- Allocation state with no tasks at all. -/
def stateEmpty : AllocState := { TaskStates := fun _ => none }

/-- A collaborator environment where every lookup succeeds with the given
ACL resolution, runner and allocation state. -/
def envOf (aclObj : Option ACL) (ar : AllocRunner) (st : AllocState) : ClientEnv :=
  { DisableRemoteExec := false
    getAllocRunner := fun _ => .ok ar
    resolveTokenAndACL := fun _ => .ok (aclObj, none)
    GetAllocState := fun _ => .ok st }

/-- A collaborator environment whose alloc-runner lookup fails with `e`. -/
def envLookupFail (e : GoError) : ClientEnv :=
  { DisableRemoteExec := false
    getAllocRunner := fun _ => .error e
    resolveTokenAndACL := fun _ => .ok (none, none)
    GetAllocState := fun _ => .ok stateEmpty }

/-- A well-formed request against task `web` of allocation `a1`. -/
def reqWeb : AllocExecRequest :=
  { AllocID := "a1", Task := "web", Cmd := ["/bin/echo", "hi"], Tty := false, AuthToken := "tok" }

/-- A request with an empty task name and an empty command. -/
def reqNoTask : AllocExecRequest :=
  { AllocID := "a1", Task := "", Cmd := [], Tty := false, AuthToken := "tok" }

/-! ### Claim theorems -/

/-- C1: for every decoded exec request whose target task's driver
filesystem isolation is `none`, if the authorization context is resolved
(not implicitly trusted) and lacks the namespace `alloc-node-exec`
capability, validation returns `PermissionDenied` with no status code and
the driver handler is not invoked — even when `alloc-exec` is granted. -/
theorem node_exec_required_when_isolation_none
    (env : ClientEnv) (req : AllocExecRequest) (ar : AllocRunner) (a : ACL)
    (tok : Option TokenInfo) (caps : Capabilities)
    (hdis : env.DisableRemoteExec = false)
    (hid : req.AllocID ≠ "")
    (har : env.getAllocRunner req.AllocID = .ok ar)
    (hres : env.resolveTokenAndACL req.AuthToken = .ok (some a, tok))
    (hexec : a.allowNsOp ar.Alloc.Namespace NamespaceCapabilityAllocExec = true)
    (htask : req.Task ≠ "")
    (hcmd : req.Cmd.length ≠ 0)
    (hcaps : ar.GetTaskDriverCapabilities req.Task = .ok caps)
    (hiso : caps.FSIsolation = FSIsolationNone)
    (hnode : a.allowNsOp ar.Alloc.Namespace NamespaceCapabilityAllocNodeExec = false) :
    (execImpl env (.ok req)).code = none ∧
    (execImpl env (.ok req)).err = some .permissionDenied ∧
    (execImpl env (.ok req)).handlerInvoked = false := by
  refine ⟨?_, ?_, ?_⟩ <;>
    simp [execImpl, aclDenied, hdis, hid, har, hres, hexec, htask, hcmd, hcaps, hiso, hnode]

/-- C1 witness: an ACL granting only `alloc-exec`, against a task with no
filesystem isolation, is denied without a status code. -/
theorem node_exec_required_when_isolation_none_witness :
    (execImpl (envOf (some aclExecOnly) arNoneIsolation stateStarted) (.ok reqWeb)).code = none ∧
    (execImpl (envOf (some aclExecOnly) arNoneIsolation stateStarted) (.ok reqWeb)).err =
      some .permissionDenied ∧
    (execImpl (envOf (some aclExecOnly) arNoneIsolation stateStarted) (.ok reqWeb)).handlerInvoked =
      false :=
  node_exec_required_when_isolation_none
    (envOf (some aclExecOnly) arNoneIsolation stateStarted) reqWeb arNoneIsolation aclExecOnly
    none { FSIsolation := FSIsolationNone }
    rfl (by decide) rfl rfl (by decide) (by decide) (by decide) rfl rfl (by decide)

/-- C2: for every decoded exec request whose resolved authorization
context lacks the namespace `alloc-exec` capability, validation returns
`PermissionDenied` with a nil status code and the driver handler is not
invoked. -/
theorem alloc_exec_capability_required
    (env : ClientEnv) (req : AllocExecRequest) (ar : AllocRunner) (a : ACL)
    (tok : Option TokenInfo)
    (hdis : env.DisableRemoteExec = false)
    (hid : req.AllocID ≠ "")
    (har : env.getAllocRunner req.AllocID = .ok ar)
    (hres : env.resolveTokenAndACL req.AuthToken = .ok (some a, tok))
    (hexec : a.allowNsOp ar.Alloc.Namespace NamespaceCapabilityAllocExec = false) :
    (execImpl env (.ok req)).code = none ∧
    (execImpl env (.ok req)).err = some .permissionDenied ∧
    (execImpl env (.ok req)).handlerInvoked = false := by
  refine ⟨?_, ?_, ?_⟩ <;>
    simp [execImpl, aclDenied, hdis, hid, har, hres, hexec]

/-- C2 witness: an ACL granting nothing is denied `alloc-exec` with no
status code. -/
theorem alloc_exec_capability_required_witness :
    (execImpl (envOf (some aclNothing) arImage stateStarted) (.ok reqWeb)).code = none ∧
    (execImpl (envOf (some aclNothing) arImage stateStarted) (.ok reqWeb)).err =
      some .permissionDenied ∧
    (execImpl (envOf (some aclNothing) arImage stateStarted) (.ok reqWeb)).handlerInvoked = false :=
  alloc_exec_capability_required
    (envOf (some aclNothing) arImage stateStarted) reqWeb arImage aclNothing none
    rfl (by decide) rfl rfl (by decide)

/-- C3 counterexample: the claim that the request's allocation ID and
task name are both non-empty whenever an authorization capability check
is evaluated is false: the `alloc-exec` check runs before the task-name
validation, so it is evaluated on a request whose task name is empty. -/
theorem validation_order_counterexample :
    ¬ (∀ (env : ClientEnv) (req : AllocExecRequest),
        ((execImpl env (.ok req)).allocExecChecked = true →
          req.AllocID ≠ "" ∧ req.Task ≠ "") ∧
        ((execImpl env (.ok req)).handlerInvoked = true → req.Cmd ≠ [])) := by
  intro h
  have h2 := (h (envOf (some aclNothing) arImage stateStarted) reqNoTask).1 (by decide)
  exact h2.2 (by decide)

/-- C3 amended: when the `alloc-exec` capability check is evaluated the
allocation ID is non-empty (the task name may still be empty); when the
`alloc-node-exec` check is evaluated the allocation ID and task name are
both non-empty; when the driver handler is invoked the allocation ID,
task name and command are all non-empty. -/
theorem checkpoint_nonempty_fields (env : ClientEnv) (req : AllocExecRequest) :
    ((execImpl env (.ok req)).allocExecChecked = true → req.AllocID ≠ "") ∧
    ((execImpl env (.ok req)).nodeExecChecked = true → req.AllocID ≠ "" ∧ req.Task ≠ "") ∧
    ((execImpl env (.ok req)).handlerInvoked = true →
      req.AllocID ≠ "" ∧ req.Task ≠ "" ∧ req.Cmd ≠ []) := by
  suffices h : ∀ r : ExecResult, execImpl env (.ok req) = r →
      (r.allocExecChecked = true → req.AllocID ≠ "") ∧
      (r.nodeExecChecked = true → req.AllocID ≠ "" ∧ req.Task ≠ "") ∧
      (r.handlerInvoked = true → req.AllocID ≠ "" ∧ req.Task ≠ "" ∧ req.Cmd ≠ []) by
    exact h _ rfl
  intro r hr
  simp only [execImpl] at hr
  repeat' split at hr
  all_goals subst hr
  all_goals simp_all [List.length_eq_zero]

/-- C3 amended witness: a full pipeline run reaching the driver handler
has non-empty allocation ID, task name and command. -/
theorem checkpoint_nonempty_fields_witness :
    reqWeb.AllocID ≠ "" ∧ reqWeb.Task ≠ "" ∧ reqWeb.Cmd ≠ [] :=
  (checkpoint_nonempty_fields (envOf (some aclAll) arImage stateStarted) reqWeb).2.2 (by decide)

/-- C5: once the pipeline reaches the driver handler, a handler error is
mapped to status 500 paired with that error, and a handler success yields
no status code and no error, with no terminal envelope written by this
layer. -/
theorem session_runner_status
    (env : ClientEnv) (req : AllocExecRequest) (ar : AllocRunner) (aclObj : Option ACL)
    (tok : Option TokenInfo) (caps : Capabilities) (st : AllocState) (ts : TaskState)
    (h : ExecHandler)
    (hdis : env.DisableRemoteExec = false)
    (hid : req.AllocID ≠ "")
    (har : env.getAllocRunner req.AllocID = .ok ar)
    (hres : env.resolveTokenAndACL req.AuthToken = .ok (aclObj, tok))
    (hexec : aclDenied aclObj ar.Alloc.Namespace NamespaceCapabilityAllocExec = false)
    (htask : req.Task ≠ "")
    (hcmd : req.Cmd.length ≠ 0)
    (hcaps : ar.GetTaskDriverCapabilities req.Task = .ok caps)
    (hnode : ((aclObj.isSome && (caps.FSIsolation == FSIsolationNone)) &&
        aclDenied aclObj ar.Alloc.Namespace NamespaceCapabilityAllocNodeExec) = false)
    (hst : env.GetAllocState req.AllocID = .ok st)
    (hts : st.TaskStates req.Task = some ts)
    (hstart : ts.StartedAt ≠ 0)
    (hh : ar.GetTaskExecHandler req.Task = some h) :
    (execImpl env (.ok req)).handlerInvoked = true ∧
    (∀ e, h req.Cmd req.Tty = some e →
      (execImpl env (.ok req)).code = some 500 ∧
      (execImpl env (.ok req)).err = some (.external e)) ∧
    (h req.Cmd req.Tty = none →
      (execImpl env (.ok req)).code = none ∧
      (execImpl env (.ok req)).err = none ∧
      (Allocations.exec env (.ok req)).2 = none) := by
  rcases hcall : h req.Cmd req.Tty with _ | e
  · refine ⟨?_, ?_, ?_⟩
    · simp [execImpl, hdis, hid, har, hres, hexec, htask, hcmd, hcaps, hnode, hst, hts,
        hstart, hh, hcall]
    · intro e he
      cases he
    · intro _
      refine ⟨?_, ?_, ?_⟩ <;>
        simp [execImpl, Allocations.exec, hdis, hid, har, hres, hexec, htask, hcmd, hcaps,
          hnode, hst, hts, hstart, hh, hcall]
  · refine ⟨?_, ?_, ?_⟩
    · simp [execImpl, hdis, hid, har, hres, hexec, htask, hcmd, hcaps, hnode, hst, hts,
        hstart, hh, hcall]
    · intro e2 he2
      cases he2
      refine ⟨?_, ?_⟩ <;>
        simp [execImpl, hdis, hid, har, hres, hexec, htask, hcmd, hcaps, hnode, hst, hts,
          hstart, hh, hcall]
    · intro he2
      cases he2

/-- C5 witness: with every lookup succeeding and a succeeding handler,
the session ends with no status code, no error, and no terminal
envelope. -/
theorem session_runner_status_witness :
    (execImpl (envOf (some aclAll) arImage stateStarted) (.ok reqWeb)).code = none ∧
    (execImpl (envOf (some aclAll) arImage stateStarted) (.ok reqWeb)).err = none ∧
    (Allocations.exec (envOf (some aclAll) arImage stateStarted) (.ok reqWeb)).2 = none :=
  (session_runner_status
    (envOf (some aclAll) arImage stateStarted) reqWeb arImage (some aclAll) none
    { FSIsolation := FSIsolationImage } stateStarted { StartedAt := 7 } handlerOk
    rfl (by decide) rfl rfl (by decide) (by decide) (by decide) rfl (by decide) rfl
    (by decide) (by decide) rfl).2.2 rfl

/-- C6: when the allocation-runner lookup fails, an unknown-allocation
error yields status 404 and any other error yields status 500; the
driver handler is not invoked. -/
theorem alloc_lookup_failure_codes
    (env : ClientEnv) (req : AllocExecRequest) (e : GoError)
    (hdis : env.DisableRemoteExec = false)
    (hid : req.AllocID ≠ "")
    (har : env.getAllocRunner req.AllocID = .error e) :
    (execImpl env (.ok req)).err = some (.external e) ∧
    (execImpl env (.ok req)).handlerInvoked = false ∧
    (e.isUnknownAllocation = true → (execImpl env (.ok req)).code = some 404) ∧
    (e.isUnknownAllocation = false → (execImpl env (.ok req)).code = some 500) := by
  refine ⟨?_, ?_, ?_, ?_⟩
  · simp [execImpl, hdis, hid, har]
  · simp [execImpl, hdis, hid, har]
  · intro hu
    simp [execImpl, lookupCode, hdis, hid, har, hu]
  · intro hu
    simp [execImpl, lookupCode, hdis, hid, har, hu]

/-- C6 witness: an unknown-allocation lookup failure yields status 404
and the propagated error. -/
theorem alloc_lookup_failure_codes_witness :
    (execImpl (envLookupFail unknownAllocErr) (.ok reqWeb)).err =
      some (.external unknownAllocErr) ∧
    (execImpl (envLookupFail unknownAllocErr) (.ok reqWeb)).code = some 404 :=
  ⟨(alloc_lookup_failure_codes (envLookupFail unknownAllocErr) reqWeb unknownAllocErr
      rfl (by decide) rfl).1,
   (alloc_lookup_failure_codes (envLookupFail unknownAllocErr) reqWeb unknownAllocErr
      rfl (by decide) rfl).2.2.1 rfl⟩

/-- C7: a located task with a zero start timestamp yields status 404 with
the "not started yet" error; a started task whose driver exposes no exec
handler yields status 404 with the "is not running" error; the two
messages are distinct for every task name. -/
theorem task_not_started_vs_not_running
    (env : ClientEnv) (req : AllocExecRequest) (ar : AllocRunner) (aclObj : Option ACL)
    (tok : Option TokenInfo) (caps : Capabilities) (st : AllocState) (ts : TaskState)
    (hdis : env.DisableRemoteExec = false)
    (hid : req.AllocID ≠ "")
    (har : env.getAllocRunner req.AllocID = .ok ar)
    (hres : env.resolveTokenAndACL req.AuthToken = .ok (aclObj, tok))
    (hexec : aclDenied aclObj ar.Alloc.Namespace NamespaceCapabilityAllocExec = false)
    (htask : req.Task ≠ "")
    (hcmd : req.Cmd.length ≠ 0)
    (hcaps : ar.GetTaskDriverCapabilities req.Task = .ok caps)
    (hnode : ((aclObj.isSome && (caps.FSIsolation == FSIsolationNone)) &&
        aclDenied aclObj ar.Alloc.Namespace NamespaceCapabilityAllocNodeExec) = false)
    (hst : env.GetAllocState req.AllocID = .ok st)
    (hts : st.TaskStates req.Task = some ts) :
    (ts.StartedAt = 0 →
      (execImpl env (.ok req)).code = some 404 ∧
      (execImpl env (.ok req)).err = some (.taskNotStarted req.Task)) ∧
    (ts.StartedAt ≠ 0 → ar.GetTaskExecHandler req.Task = none →
      (execImpl env (.ok req)).code = some 404 ∧
      (execImpl env (.ok req)).err = some (.taskNotRunning req.Task)) ∧
    (∀ t : String,
      (ExecError.taskNotStarted t).message ≠ (ExecError.taskNotRunning t).message) := by
  refine ⟨?_, ?_, ?_⟩
  · intro hz
    refine ⟨?_, ?_⟩ <;>
      simp [execImpl, hdis, hid, har, hres, hexec, htask, hcmd, hcaps, hnode, hst, hts, hz]
  · intro hz hh
    refine ⟨?_, ?_⟩ <;>
      simp [execImpl, hdis, hid, har, hres, hexec, htask, hcmd, hcaps, hnode, hst, hts, hz, hh]
  · intro t hmsg
    have hlen := congrArg String.length hmsg
    simp only [ExecError.message, goQuote, String.length_append] at hlen
    have e1 : ("task " : String).length = 5 := rfl
    have e2 : ("\"" : String).length = 1 := rfl
    have e3 : (" not started yet." : String).length = 17 := rfl
    have e4 : (" is not running." : String).length = 16 := rfl
    rw [e1, e2, e3, e4] at hlen
    omega

/-- C7 witness: a trusted context against the never-started `web` task
gets 404 with the "not started yet" error, and the two 404 messages
differ for task `web`. -/
theorem task_not_started_vs_not_running_witness :
    ((execImpl (envOf none arImage stateNotStarted) (.ok reqWeb)).code = some 404 ∧
     (execImpl (envOf none arImage stateNotStarted) (.ok reqWeb)).err =
       some (.taskNotStarted reqWeb.Task)) ∧
    (ExecError.taskNotStarted "web").message ≠ (ExecError.taskNotRunning "web").message :=
  ⟨(task_not_started_vs_not_running
      (envOf none arImage stateNotStarted) reqWeb arImage none none
      { FSIsolation := FSIsolationImage } stateNotStarted { StartedAt := 0 }
      rfl (by decide) rfl rfl (by decide) (by decide) (by decide) rfl (by decide) rfl
      (by decide)).1 rfl,
   (task_not_started_vs_not_running
      (envOf none arImage stateNotStarted) reqWeb arImage none none
      { FSIsolation := FSIsolationImage } stateNotStarted { StartedAt := 0 }
      rfl (by decide) rfl rfl (by decide) (by decide) (by decide) rfl (by decide) rfl
      (by decide)).2.2 "web"⟩

/-- C8: a request naming a task absent from the allocation's task-state
mapping yields status 400 with the "unknown task name" error, and the
driver handler is not invoked. -/
theorem unknown_task_name_400
    (env : ClientEnv) (req : AllocExecRequest) (ar : AllocRunner) (aclObj : Option ACL)
    (tok : Option TokenInfo) (caps : Capabilities) (st : AllocState)
    (hdis : env.DisableRemoteExec = false)
    (hid : req.AllocID ≠ "")
    (har : env.getAllocRunner req.AllocID = .ok ar)
    (hres : env.resolveTokenAndACL req.AuthToken = .ok (aclObj, tok))
    (hexec : aclDenied aclObj ar.Alloc.Namespace NamespaceCapabilityAllocExec = false)
    (htask : req.Task ≠ "")
    (hcmd : req.Cmd.length ≠ 0)
    (hcaps : ar.GetTaskDriverCapabilities req.Task = .ok caps)
    (hnode : ((aclObj.isSome && (caps.FSIsolation == FSIsolationNone)) &&
        aclDenied aclObj ar.Alloc.Namespace NamespaceCapabilityAllocNodeExec) = false)
    (hst : env.GetAllocState req.AllocID = .ok st)
    (hts : st.TaskStates req.Task = none) :
    (execImpl env (.ok req)).code = some 400 ∧
    (execImpl env (.ok req)).err = some (.unknownTaskName req.Task) ∧
    (execImpl env (.ok req)).handlerInvoked = false := by
  refine ⟨?_, ?_, ?_⟩ <;>
    simp [execImpl, hdis, hid, har, hres, hexec, htask, hcmd, hcaps, hnode, hst, hts]

/-- C8 witness: task `web` is absent from an empty task-state mapping,
so the request gets 400 and the handler is never invoked. -/
theorem unknown_task_name_400_witness :
    (execImpl (envOf none arImage stateEmpty) (.ok reqWeb)).code = some 400 ∧
    (execImpl (envOf none arImage stateEmpty) (.ok reqWeb)).err =
      some (.unknownTaskName reqWeb.Task) ∧
    (execImpl (envOf none arImage stateEmpty) (.ok reqWeb)).handlerInvoked = false :=
  unknown_task_name_400
    (envOf none arImage stateEmpty) reqWeb arImage none none
    { FSIsolation := FSIsolationImage } stateEmpty
    rfl (by decide) rfl rfl (by decide) (by decide) (by decide) rfl (by decide) rfl rfl

/-- C4: `Send` writes one envelope whose error field is unset and whose
payload decodes, under the counterpart's inner-encoding receive, to a
frame equal to the one sent. -/
theorem send_recv_roundtrip (s : ExecStreamBuf) (m : ExecTaskStreamingResponseMsg) :
    (execStream.Send s m).2.Error = none ∧
    counterpartRecv (execStream.Send s m).2 = some m := by
  refine ⟨rfl, ?_⟩
  simp [execStream.Send, counterpartRecv, decodeResponseFrame_encode]

/-- C9: every envelope written by `Send` has its error field unset, and
every terminal envelope comes from the pre-session error-reporting path,
whose envelopes always have the error field set. -/
theorem terminal_envelopes_only_pre_session :
    (∀ (s : ExecStreamBuf) (m : ExecTaskStreamingResponseMsg),
      (execStream.Send s m).2.Error = none) ∧
    (∀ (env : ClientEnv) (d : Except GoError AllocExecRequest) (w : StreamErrWrapper),
      (Allocations.exec env d).2 = some w → w.Error.isSome = true) := by
  refine ⟨fun s m => rfl, ?_⟩
  intro env d w hw
  simp only [Allocations.exec] at hw
  rcases herr : (execImpl env d).err with _ | e
  · rw [herr] at hw
    cases hw
  · rw [herr] at hw
    simp only at hw
    cases hw
    rfl

/-- C9 witness: the envelope written after a failed allocation lookup is
terminal (its error field is set). -/
theorem terminal_envelopes_only_pre_session_witness :
    (handleStreamResultError (.external unknownAllocErr) (some 404)).Error.isSome = true :=
  terminal_envelopes_only_pre_session.2
    (envLookupFail unknownAllocErr) (.ok reqWeb)
    (handleStreamResultError (.external unknownAllocErr) (some 404)) (by decide)

/-- C10: `Recv` always returns a frame: the decoded frame on success, and
the zero-valued frame (never an absent one) together with the error on a
decode failure. -/
theorem recv_returns_frame_even_on_error
    (e : GoError) (r : ExecTaskStreamingRequestMsg) :
    execStream.Recv (.error e) = (zeroExecTaskStreamingRequestMsg, some e) ∧
    execStream.Recv (.ok r) = (r, none) :=
  ⟨rfl, rfl⟩

end NomadExec
